import Mathlib

/-!
Verification of the chat / notification / follow-graph layer of the
genzly social client.  The definitions below are shallow embeddings of the
TypeScript services in `src/services` and `src/hooks`: Firestore documents
become Lean structures, a collection becomes a list of documents, an
awaited single-document write or a `writeBatch` commit becomes one element
of an explicit commit sequence, and JavaScript truthiness on optional
fields is modelled explicitly.
-/

namespace Genzly

/-- JS truthiness of a possibly-absent string field (`undefined` and `""`
are falsy). -/
def strTruthy : Option String → Bool
  | none => false
  | some s => !(s == "")

/-- JS `x || 1` for a possibly-absent numeric field (`undefined` and `0`
are falsy). -/
def orOneNat : Option Nat → Nat
  | none => 1
  | some 0 => 1
  | some (n+1) => n+1

/-- JS `xs[0] || d` for an array of strings (`undefined` and `""` are
falsy). -/
def jsHeadOr (l : List String) (d : String) : String :=
  match l.head? with
  | none => d
  | some a => if a == "" then d else a

/-- Notification kinds of `unifiedNotificationService.ts`. -/
inductive NotifType
  | like
  | comment
  | follow_request
  | follow_accept
deriving DecidableEq

/-- One document of the `notifications/{receiverId}/items` collection.
`aggregatedCount` and `lastActors` are optional because documents written
by older services may lack them (the code reads them with `|| 1` and
`|| [senderId]` fallbacks). -/
structure NotifDoc where
  docId : Nat
  ntype : NotifType
  senderId : String
  receiverId : String
  timestamp : Nat
  seen : Bool
  postId : Option String
  commentText : Option String
  aggregatedCount : Option Nat
  lastActors : Option (List String)
deriving DecidableEq

/-- The notification store: all `items` documents (each carries its
receiver), plus a fresh-id counter standing for Firestore's generated
document ids. -/
structure NotifStore where
  docs : List NotifDoc
  nextId : Nat
deriving DecidableEq

def NotifStore.empty : NotifStore := ⟨[], 0⟩

/-- The query `where type=='like', where postId==p` on
`notifications/{receiverId}/items`. -/
def likeMatch (receiverId : String) (postId : Option String) (d : NotifDoc) : Bool :=
  d.receiverId == receiverId && d.ntype == NotifType.like && d.postId == postId

/-- The query `where senderId==s, where type=='follow_request'` on
`notifications/{receiverId}/items`. -/
def frMatch (receiverId senderId : String) (d : NotifDoc) : Bool :=
  d.receiverId == receiverId && d.senderId == senderId &&
    d.ntype == NotifType.follow_request

/-- `updateDoc` on the document with a given id. -/
def updateById (docs : List NotifDoc) (i : Nat) (f : NotifDoc → NotifDoc) :
    List NotifDoc :=
  docs.map fun d => if d.docId == i then f d else d

/-- Shallow embedding of `createUnifiedNotification`
(`unifiedNotificationService.ts`).  `profiles` says which user ids have a
profile document (`getUserProfile` returning non-null); `now` stands for
`serverTimestamp()`. -/
def createUnifiedNotification (profiles : String → Bool) (now : Nat)
    (receiverId senderId : String) (ntype : NotifType)
    (postId commentText : Option String) (s : NotifStore) : NotifStore :=
  if receiverId == senderId then s
  else if !(profiles senderId) then s
  else
    let likeHit :=
      if ntype == NotifType.like && strTruthy postId then
        (s.docs.filter (likeMatch receiverId postId)).head?
      else none
    match likeHit with
    | some d =>
      let currentActors := d.lastActors.getD [d.senderId]
      let newActors := (senderId :: currentActors.filter (fun i => i != senderId)).take 3
      ⟨updateById s.docs d.docId (fun e =>
          { e with timestamp := now
                   seen := false
                   aggregatedCount := some (orOneNat e.aggregatedCount + 1)
                   lastActors := some newActors
                   senderId := senderId }), s.nextId⟩
    | none =>
      let frHit :=
        if ntype == NotifType.follow_request then
          (s.docs.filter (frMatch receiverId senderId)).head?
        else none
      match frHit with
      | some d =>
        ⟨updateById s.docs d.docId (fun e =>
            { e with timestamp := now, seen := false }), s.nextId⟩
      | none =>
        ⟨s.docs ++ [{ docId := s.nextId
                      ntype := ntype
                      senderId := senderId
                      receiverId := receiverId
                      timestamp := now
                      seen := false
                      postId := if strTruthy postId then postId else none
                      commentText := if strTruthy commentText then commentText else none
                      aggregatedCount := some 1
                      lastActors := some [senderId] }], s.nextId + 1⟩

/-- The query of `removeUnifiedNotification`: `where type==t`, plus
`where postId==p` when `p` is truthy, plus `where senderId==s` when the
type is not `'like'`. -/
def removeMatch (receiverId senderId : String) (t : NotifType)
    (postId : Option String) (d : NotifDoc) : Bool :=
  d.receiverId == receiverId && d.ntype == t &&
    (!strTruthy postId || d.postId == postId) &&
    (t == NotifType.like || d.senderId == senderId)

/-- Shallow embedding of `removeUnifiedNotification`
(`unifiedNotificationService.ts`). -/
def removeUnifiedNotification (now : Nat) (receiverId senderId : String)
    (t : NotifType) (postId : Option String) (s : NotifStore) : NotifStore :=
  let hits := s.docs.filter (removeMatch receiverId senderId t postId)
  if t == NotifType.like && !hits.isEmpty then
    match hits.head? with
    | none => s
    | some d =>
      if (match d.aggregatedCount with | some n => decide (1 < n) | none => false) then
        let newActors := (d.lastActors.getD []).filter (fun i => i != senderId)
        let newCount := orOneNat d.aggregatedCount - 1
        ⟨updateById s.docs d.docId (fun e =>
            { e with aggregatedCount := some newCount
                     lastActors := some newActors
                     senderId := jsHeadOr newActors d.senderId
                     timestamp := now }), s.nextId⟩
      else
        ⟨s.docs.filter (fun e => e.docId != d.docId), s.nextId⟩
  else
    ⟨s.docs.filter (fun e => !(removeMatch receiverId senderId t postId e)), s.nextId⟩

/-- A sequence of like actions on one post: each element of the actor list
performs `createUnifiedNotification .. 'like' ..` in order, with strictly
increasing server timestamps. -/
def applyLikes (profiles : String → Bool) (receiverId postIdStr : String) :
    Nat → List String → NotifStore → NotifStore
  | _, [], s => s
  | t, a :: rest, s =>
    applyLikes profiles receiverId postIdStr (t+1) rest
      (createUnifiedNotification profiles t receiverId a NotifType.like
        (some postIdStr) none s)

/-- All like notifications stored for a (recipient, post) pair. -/
def likeDocsFor (s : NotifStore) (receiverId postIdStr : String) : List NotifDoc :=
  s.docs.filter (likeMatch receiverId (some postIdStr))

/-- The single aggregated like notification document for a
(recipient, post) pair: primary sender, timestamp, count and
most-recent-actors list. -/
def aggDoc (receiverId postIdStr senderId : String) (ts n : Nat)
    (actors : List String) : NotifDoc :=
  { docId := 0
    ntype := NotifType.like
    senderId := senderId
    receiverId := receiverId
    timestamp := ts
    seen := false
    postId := some postIdStr
    commentText := none
    aggregatedCount := some n
    lastActors := some actors }

lemma orOneNat_some_of_ne (n : Nat) (h : n ≠ 0) : orOneNat (some n) = n := by
  cases n with
  | zero => exact absurd rfl h
  | succ m => rfl

lemma take_filter_step (a : String) (R : List String) (h : a ∉ R) :
    (a :: (R.take 3).filter (fun i => i != a)).take 3 = (a :: R).take 3 := by
  have hf : (R.take 3).filter (fun i => i != a) = R.take 3 := by
    apply List.filter_eq_self.mpr
    intro x hx
    have hxR : x ∈ R := List.mem_of_mem_take hx
    have hxa : x ≠ a := by rintro rfl; exact h hxR
    simpa using hxa
  rw [hf, List.take_succ_cons, List.take_succ_cons, List.take_take]
  norm_num

/-- First like on a fresh post: `createUnifiedNotification` creates the
aggregate document with count 1 and actor list `[a]`. -/
lemma create_like_empty (profiles : String → Bool) (t : Nat) (r a p : String)
    (har : (r == a) = false) (hprof : profiles a = true) (hp : (p == "") = false) :
    createUnifiedNotification profiles t r a NotifType.like (some p) none NotifStore.empty
      = ⟨[aggDoc r p a t 1 [a]], 1⟩ := by
  simp [createUnifiedNotification, NotifStore.empty, har, hprof, strTruthy, hp, aggDoc]

/-- A like by a fresh actor on an existing aggregate document increments
the count, rotates the actor list and promotes the new actor to primary
sender. -/
lemma create_like_step (profiles : String → Bool) (t ts : Nat) (r a p : String)
    (R : List String) (har : (r == a) = false) (hprof : profiles a = true)
    (hp : (p == "") = false) (hR : R ≠ []) (hnotin : a ∉ R) :
    createUnifiedNotification profiles t r a NotifType.like (some p) none
        ⟨[aggDoc r p R.headI ts R.length (R.take 3)], 1⟩
      = ⟨[aggDoc r p a t (R.length + 1) ((a :: R).take 3)], 1⟩ := by
  have hlen : orOneNat (some R.length) = R.length :=
    orOneNat_some_of_ne _ (Nat.pos_iff_ne_zero.mp (List.length_pos.mpr hR))
  simp only [createUnifiedNotification, har, hprof, strTruthy, hp, likeMatch, aggDoc,
    updateById, Bool.not_true, Bool.false_eq_true, if_false, beq_self_eq_true,
    Bool.and_self, Bool.not_false, if_true, List.filter_cons, List.filter_nil,
    List.head?_cons, Option.getD_some, List.map_cons, List.map_nil]
  simp only [aggDoc, NotifDoc.mk.injEq, NotifStore.mk.injEq, List.cons.injEq, and_true,
    true_and]
  exact ⟨congrArg some (by rw [hlen]), congrArg some (take_filter_step a R hnotin)⟩

/-- A repeat like by the actor already recorded as sole actor: the count
still increments; only the actor list stays deduplicated. -/
lemma create_like_dup (profiles : String → Bool) (t ts : Nat) (r a p : String)
    (n : Nat) (har : (r == a) = false) (hprof : profiles a = true)
    (hp : (p == "") = false) (hn : n ≠ 0) :
    createUnifiedNotification profiles t r a NotifType.like (some p) none
        ⟨[aggDoc r p a ts n [a]], 1⟩
      = ⟨[aggDoc r p a t (n + 1) [a]], 1⟩ := by
  have hlen : orOneNat (some n) = n := orOneNat_some_of_ne _ hn
  simp only [createUnifiedNotification, har, hprof, strTruthy, hp, likeMatch, aggDoc,
    updateById, Bool.not_true, Bool.false_eq_true, if_false, beq_self_eq_true,
    Bool.and_self, Bool.not_false, if_true, List.filter_cons, List.filter_nil,
    List.head?_cons, Option.getD_some, List.map_cons, List.map_nil]
  simp only [aggDoc, NotifDoc.mk.injEq, NotifStore.mk.injEq, List.cons.injEq, and_true,
    true_and]
  exact ⟨congrArg some (by rw [hlen]), congrArg some (by simp)⟩

/-- Invariant of a run of distinct-actor likes: the store stays a single
aggregate document whose count is the number of likes so far and whose
actor list is the three most recent actors. -/
lemma applyLikes_singleton (profiles : String → Bool) (r p : String)
    (hp : (p == "") = false) (as : List String) :
    ∀ (R : List String) (t ts : Nat), R ≠ [] →
      (∀ x ∈ as, x ∉ R) → as.Nodup →
      (∀ x ∈ as, (r == x) = false) → (∀ x ∈ as, profiles x = true) →
      ∃ ts₁, applyLikes profiles r p t as
          ⟨[aggDoc r p R.headI ts R.length (R.take 3)], 1⟩
        = ⟨[aggDoc r p (as.reverse ++ R).headI ts₁ (as.reverse ++ R).length
            ((as.reverse ++ R).take 3)], 1⟩ := by
  induction as with
  | nil =>
    intro R t ts hR _ _ _ _
    exact ⟨ts, by simp [applyLikes]⟩
  | cons a rest ih =>
    intro R t ts hR hnotin hnd hner hprof
    have ha : a ∉ R := hnotin a (List.mem_cons_self a rest)
    have hstep := create_like_step profiles t ts r a p R
      (hner a (List.mem_cons_self a rest)) (hprof a (List.mem_cons_self a rest)) hp hR ha
    have hrest : ∀ x ∈ rest, x ∉ a :: R := by
      intro x hx
      simp only [List.mem_cons, not_or]
      refine ⟨?_, hnotin x (List.mem_cons_of_mem a hx)⟩
      rintro rfl
      exact (List.nodup_cons.mp hnd).1 hx
    obtain ⟨ts₁, h2⟩ := ih (a :: R) (t + 1) t (by simp)
      hrest (List.nodup_cons.mp hnd).2
      (fun x hx => hner x (List.mem_cons_of_mem a hx))
      (fun x hx => hprof x (List.mem_cons_of_mem a hx))
    refine ⟨ts₁, ?_⟩
    have hunf : applyLikes profiles r p t (a :: rest)
        ⟨[aggDoc r p R.headI ts R.length (R.take 3)], 1⟩
      = applyLikes profiles r p (t + 1) rest
          (createUnifiedNotification profiles t r a NotifType.like (some p) none
            ⟨[aggDoc r p R.headI ts R.length (R.take 3)], 1⟩) := rfl
    rw [hunf, hstep]
    have hform : aggDoc r p a t (R.length + 1) ((a :: R).take 3)
        = aggDoc r p (a :: R).headI t (a :: R).length ((a :: R).take 3) := rfl
    rw [hform, h2]
    have hlist : rest.reverse ++ (a :: R) = (a :: rest).reverse ++ R := by
      simp [List.reverse_cons, List.append_assoc]
    rw [hlist]

/-- C1: a sequence of N pairwise-distinct-actor likes on one subject with
no intervening unlikes leaves exactly one like notification for the
(recipient, subject) pair, with `aggregatedCount = N`, `lastActors` the
min(N,3) most recent actors newest-first, and `senderId` the most recent
liker. -/
theorem likeAggregationCountLaw (profiles : String → Bool) (r p : String)
    (as : List String) (hne : as ≠ []) (hnd : as.Nodup)
    (hr : ∀ x ∈ as, x ≠ r) (hp : p ≠ "")
    (hprof : ∀ x ∈ as, profiles x = true) :
    ∃ ts, likeDocsFor (applyLikes profiles r p 0 as NotifStore.empty) r p
      = [aggDoc r p as.reverse.headI ts as.length (as.reverse.take 3)] := by
  have hp' : (p == "") = false := beq_eq_false_iff_ne.mpr hp
  obtain ⟨a, rest, rfl⟩ := List.exists_cons_of_ne_nil hne
  have har : (r == a) = false :=
    beq_eq_false_iff_ne.mpr (Ne.symm (hr a (List.mem_cons_self a rest)))
  have hbase := create_like_empty profiles 0 r a p har
    (hprof a (List.mem_cons_self a rest)) hp'
  have hunf : applyLikes profiles r p 0 (a :: rest) NotifStore.empty
      = applyLikes profiles r p 1 rest
          (createUnifiedNotification profiles 0 r a NotifType.like (some p) none
            NotifStore.empty) := rfl
  have hsingle : aggDoc r p a 0 1 [a]
      = aggDoc r p ([a] : List String).headI 0 ([a] : List String).length
          (([a] : List String).take 3) := rfl
  obtain ⟨ts₁, hrun⟩ := applyLikes_singleton profiles r p hp' rest [a] 1 0 (by simp)
    (by
      intro x hx
      simp only [List.mem_singleton]
      rintro rfl
      exact (List.nodup_cons.mp hnd).1 hx)
    (List.nodup_cons.mp hnd).2
    (fun x hx => beq_eq_false_iff_ne.mpr (Ne.symm (hr x (List.mem_cons_of_mem a hx))))
    (fun x hx => hprof x (List.mem_cons_of_mem a hx))
  refine ⟨ts₁, ?_⟩
  rw [hunf, hbase, hsingle, hrun]
  have hlist : rest.reverse ++ [a] = (a :: rest).reverse := by
    simp [List.reverse_cons]
  rw [hlist]
  have hlen : ((a :: rest).reverse).length = (a :: rest).length := by
    simp
  rw [hlen]
  simp [likeDocsFor, likeMatch, aggDoc]

/-- Witness for C1 at a concrete four-actor run. -/
theorem likeAggregationCountLaw_witness :
    ∃ ts, likeDocsFor
        (applyLikes (fun _ => true) "r" "p" 0 ["a", "b", "c", "d"] NotifStore.empty)
        "r" "p"
      = [aggDoc "r" "p" "d" ts 4 ["d", "c", "b"]] :=
  likeAggregationCountLaw (fun _ => true) "r" "p" ["a", "b", "c", "d"]
    (by decide) (by decide) (by decide) (by decide) (by decide)

/-- C2 counterexample: recipient `"r"`, actor `"a"`, post `"p"`.  Two
`createUnifiedNotification 'like'` calls by the same actor with no
intervening unlike leave `aggregatedCount = 2`, while a single call
leaves `aggregatedCount = 1` — the duplicate like is NOT suppressed in
the count. -/
theorem likeDuplicateNotSuppressed_cex :
    (likeDocsFor
        (createUnifiedNotification (fun _ => true) 1 "r" "a" NotifType.like (some "p") none
          (createUnifiedNotification (fun _ => true) 0 "r" "a" NotifType.like (some "p") none
            NotifStore.empty)) "r" "p").map (fun d => d.aggregatedCount) = [some 2] ∧
    (likeDocsFor
        (createUnifiedNotification (fun _ => true) 0 "r" "a" NotifType.like (some "p") none
          NotifStore.empty) "r" "p").map (fun d => d.aggregatedCount) = [some 1] := by
  decide

/-- C2 amended: calling `createUnifiedNotification 'like'` twice for the
same (actor, recipient, subject) triple with no intervening unlike leaves
`aggregatedCount = 2` (one more than a single call leaves); deduplication
applies only to the `lastActors` list, which stays `[a]`. -/
theorem likeDuplicateIncrementsCount (profiles : String → Bool) (r a p : String)
    (t₀ t₁ : Nat) (har : a ≠ r) (hp : p ≠ "") (hprof : profiles a = true) :
    likeDocsFor
        (createUnifiedNotification profiles t₁ r a NotifType.like (some p) none
          (createUnifiedNotification profiles t₀ r a NotifType.like (some p) none
            NotifStore.empty)) r p
      = [aggDoc r p a t₁ 2 [a]] := by
  have hp' : (p == "") = false := beq_eq_false_iff_ne.mpr hp
  have har' : (r == a) = false := beq_eq_false_iff_ne.mpr (Ne.symm har)
  rw [create_like_empty profiles t₀ r a p har' hprof hp',
    create_like_dup profiles t₁ t₀ r a p 1 har' hprof hp' one_ne_zero]
  simp [likeDocsFor, likeMatch, aggDoc]

/-- Witness for the amended C2 at a concrete input. -/
theorem likeDuplicateIncrementsCount_witness :
    likeDocsFor
        (createUnifiedNotification (fun _ => true) 1 "r" "a" NotifType.like (some "p") none
          (createUnifiedNotification (fun _ => true) 0 "r" "a" NotifType.like (some "p") none
            NotifStore.empty)) "r" "p"
      = [aggDoc "r" "p" "a" 1 2 ["a"]] :=
  likeDuplicateIncrementsCount (fun _ => true) "r" "a" "p" 0 1
    (by decide) (by decide) rfl

/-- Deleting the aggregate when the last (sole) like is reversed:
`removeUnifiedNotification 'like'` on a count-1 aggregate deletes the
record outright, whoever the unliking sender is. -/
lemma remove_like_last (now k : Nat) (r u p s₁ : String) (ts : Nat)
    (L : Option (List String)) (hp : (p == "") = false) :
    (removeUnifiedNotification now r u NotifType.like (some p)
        ⟨[{ aggDoc r p s₁ ts 1 [] with lastActors := L }], k⟩).docs = [] := by
  simp [removeUnifiedNotification, removeMatch, aggDoc, strTruthy, hp, updateById]

/-- Decrementing the aggregate: when the actor list minus the unliking
sender is a single remaining actor, `removeUnifiedNotification 'like'` on
a count-2 aggregate leaves one record with count 1 whose primary sender
is the remaining actor. -/
lemma remove_like_decrement (now k : Nat) (r v p s₁ u : String) (ts : Nat)
    (L : List String) (hL : L.filter (fun i => i != v) = [u])
    (hu : (u == "") = false) (hp : (p == "") = false) :
    (removeUnifiedNotification now r v NotifType.like (some p)
        ⟨[aggDoc r p s₁ ts 2 L], k⟩).docs = [aggDoc r p u now 1 [u]] := by
  simp only [removeUnifiedNotification, removeMatch, aggDoc, strTruthy, hp, updateById,
    List.filter_cons, List.filter_nil, beq_self_eq_true, Bool.and_self, Bool.not_false,
    Bool.true_and, Bool.and_true, Bool.or_true, Bool.true_or, if_true,
    List.isEmpty_cons, Bool.not_true, List.head?_cons, Option.getD_some,
    List.map_cons, List.map_nil, hL]
  simp [jsHeadOr, orOneNat, hu, hL]

/-- C3: reversal law.  A like by a sole actor followed by that actor's
unlike leaves zero like-notification records; likes by two distinct
actors followed by either actor's unlike leave exactly one record with
`aggregatedCount = 1` and `senderId` equal to the remaining actor. -/
theorem likeReversalLaw (profiles : String → Bool) (r a b p : String)
    (har : a ≠ r) (hbr : b ≠ r) (hab : a ≠ b) (hp : p ≠ "")
    (ha0 : a ≠ "") (hb0 : b ≠ "")
    (hpa : profiles a = true) (hpb : profiles b = true) :
    (removeUnifiedNotification 2 r a NotifType.like (some p)
        (applyLikes profiles r p 0 [a] NotifStore.empty)).docs = [] ∧
    (removeUnifiedNotification 2 r b NotifType.like (some p)
        (applyLikes profiles r p 0 [a, b] NotifStore.empty)).docs
      = [aggDoc r p a 2 1 [a]] ∧
    (removeUnifiedNotification 2 r a NotifType.like (some p)
        (applyLikes profiles r p 0 [a, b] NotifStore.empty)).docs
      = [aggDoc r p b 2 1 [b]] := by
  have hp' : (p == "") = false := beq_eq_false_iff_ne.mpr hp
  have hra : (r == a) = false := beq_eq_false_iff_ne.mpr (Ne.symm har)
  have hrb : (r == b) = false := beq_eq_false_iff_ne.mpr (Ne.symm hbr)
  have hone : applyLikes profiles r p 0 [a] NotifStore.empty
      = ⟨[aggDoc r p a 0 1 [a]], 1⟩ := by
    show createUnifiedNotification profiles 0 r a NotifType.like (some p) none
        NotifStore.empty = _
    exact create_like_empty profiles 0 r a p hra hpa hp'
  have htwo : applyLikes profiles r p 0 [a, b] NotifStore.empty
      = ⟨[aggDoc r p b 1 2 [b, a]], 1⟩ := by
    show createUnifiedNotification profiles 1 r b NotifType.like (some p) none
        (createUnifiedNotification profiles 0 r a NotifType.like (some p) none
          NotifStore.empty) = _
    rw [create_like_empty profiles 0 r a p hra hpa hp']
    have hstep := create_like_step profiles 1 0 r b p [a] hrb hpb hp'
      (by simp) (by simpa using Ne.symm hab)
    simpa using hstep
  have hab' : (a != b) = true := bne_iff_ne.mpr hab
  have hba' : (b != a) = true := bne_iff_ne.mpr (Ne.symm hab)
  refine ⟨?_, ?_, ?_⟩
  · rw [hone]
    exact remove_like_last 2 1 r a p a 0 (some [a]) hp'
  · rw [htwo]
    exact remove_like_decrement 2 1 r b p b a 1 [b, a]
      (by simp [hab']) (beq_eq_false_iff_ne.mpr ha0) hp'
  · rw [htwo]
    exact remove_like_decrement 2 1 r a p b b 1 [b, a]
      (by simp [hba']) (beq_eq_false_iff_ne.mpr hb0) hp'

/-- Witness for C3 at a concrete input. -/
theorem likeReversalLaw_witness :
    (removeUnifiedNotification 2 "r" "a" NotifType.like (some "p")
        (applyLikes (fun _ => true) "r" "p" 0 ["a"] NotifStore.empty)).docs = [] ∧
    (removeUnifiedNotification 2 "r" "b" NotifType.like (some "p")
        (applyLikes (fun _ => true) "r" "p" 0 ["a", "b"] NotifStore.empty)).docs
      = [aggDoc "r" "p" "a" 2 1 ["a"]] ∧
    (removeUnifiedNotification 2 "r" "a" NotifType.like (some "p")
        (applyLikes (fun _ => true) "r" "p" 0 ["a", "b"] NotifStore.empty)).docs
      = [aggDoc "r" "p" "b" 2 1 ["b"]] :=
  likeReversalLaw (fun _ => true) "r" "a" "b" "p" (by decide) (by decide) (by decide)
    (by decide) (by decide) (by decide) rfl rfl

/-- Shallow embedding of `createConversationId` (`conversationService.ts`
section of `groupService.ts`): `[userId1, userId2].sort().join('_')`. -/
def createConversationId (userId1 userId2 : String) : String :=
  if userId1 ≤ userId2 then userId1 ++ "_" ++ userId2
  else userId2 ++ "_" ++ userId1

/-- C6: the conversation id deriver is order-independent, and the result
is the lexicographically sorted pair joined (with `'_'`) into one
string. -/
theorem conversationIdSymm (a b : String) :
    createConversationId a b = createConversationId b a ∧
    createConversationId a b = min a b ++ "_" ++ max a b := by
  constructor
  · unfold createConversationId
    rcases le_or_lt a b with h | h
    · rcases eq_or_lt_of_le h with rfl | h₁
      · simp
      · rw [if_pos h, if_neg (not_le.mpr h₁)]
    · rw [if_neg (not_le.mpr h), if_pos h.le]
  · unfold createConversationId
    rcases le_or_lt a b with h | h
    · rw [if_pos h, min_eq_left h, max_eq_right h]
    · rw [if_neg (not_le.mpr h), min_eq_right h.le, max_eq_left h.le]

/-- C7 counterexample: with the fixed first argument `"a_x_a"`, the two
distinct second arguments `"a_x"` and `"x_a"` derive the same
conversation id `"a_x_a_x_a"`, because the joined ids themselves contain
the separator. -/
theorem conversationIdCollision_cex :
    createConversationId "a_x_a" "a_x" = createConversationId "a_x_a" "x_a" ∧
    ("a_x" : String) ≠ "x_a" := by
  have h₁ : ¬ ("a_x_a" : String) ≤ "a_x" := by
    rw [String.le_iff_toList_le]; decide
  have h₂ : ("a_x_a" : String) ≤ "x_a" := by
    rw [String.le_iff_toList_le]; decide
  constructor
  · unfold createConversationId
    rw [if_neg h₁, if_pos h₂]
    decide
  · decide

lemma sep_split_unique (sep : Char) :
    ∀ (l₁ l₂ m₁ m₂ : List Char), sep ∉ l₁ → sep ∉ l₂ →
      l₁ ++ sep :: m₁ = l₂ ++ sep :: m₂ → l₁ = l₂ ∧ m₁ = m₂ := by
  intro l₁
  induction l₁ with
  | nil =>
    intro l₂ m₁ m₂ _ h₂ h
    cases l₂ with
    | nil =>
      simp only [List.nil_append, List.cons.injEq] at h
      exact ⟨rfl, h.2⟩
    | cons y l₂ =>
      simp only [List.nil_append, List.cons_append, List.cons.injEq] at h
      obtain ⟨rfl, -⟩ := h
      exact absurd (List.mem_cons_self _ _) h₂
  | cons x l₁ ih =>
    intro l₂ m₁ m₂ h₁ h₂ h
    cases l₂ with
    | nil =>
      simp only [List.cons_append, List.nil_append, List.cons.injEq] at h
      obtain ⟨rfl, -⟩ := h
      exact absurd (List.mem_cons_self _ _) h₁
    | cons y l₂ =>
      simp only [List.cons_append, List.cons.injEq] at h
      obtain ⟨rfl, h₃⟩ := h
      obtain ⟨hl, hm⟩ := ih l₂ m₁ m₂ (fun hm => h₁ (List.mem_cons_of_mem _ hm))
        (fun hm => h₂ (List.mem_cons_of_mem _ hm)) h₃
      exact ⟨by rw [hl], hm⟩

/-- Joining with `'_'` is cancellative when the left components are
separator-free. -/
lemma append_sep_cancel (x₁ y₁ x₂ y₂ : String)
    (h₁ : '_' ∉ x₁.data) (h₂ : '_' ∉ x₂.data)
    (h : x₁ ++ "_" ++ y₁ = x₂ ++ "_" ++ y₂) : x₁ = x₂ ∧ y₁ = y₂ := by
  have hd : x₁.data ++ '_' :: y₁.data = x₂.data ++ '_' :: y₂.data := by
    have hdata := congrArg String.data h
    simpa [String.data_append] using hdata
  obtain ⟨hx, hy⟩ := sep_split_unique '_' _ _ _ _ h₁ h₂ hd
  exact ⟨String.ext hx, String.ext hy⟩

/-- C7 amended: the conversation id deriver is injective in its second
argument for identifiers that do not contain the separator character
`'_'`. -/
theorem conversationIdInjectiveSepFree (a b c : String)
    (ha : '_' ∉ a.data) (hb : '_' ∉ b.data) (hc : '_' ∉ c.data)
    (hbc : b ≠ c) : createConversationId a b ≠ createConversationId a c := by
  intro h
  unfold createConversationId at h
  by_cases hab : a ≤ b <;> by_cases hac : a ≤ c
  · rw [if_pos hab, if_pos hac] at h
    exact hbc (append_sep_cancel a b a c ha ha h).2
  · rw [if_pos hab, if_neg hac] at h
    exact hac (le_of_eq (append_sep_cancel a b c a ha hc h).1)
  · rw [if_neg hab, if_pos hac] at h
    exact hab (le_of_eq (append_sep_cancel b a a c hb ha h).1.symm)
  · rw [if_neg hab, if_neg hac] at h
    exact hbc (append_sep_cancel b a c a hb hc h).1

/-- Witness for the amended C7 at concrete separator-free ids. -/
theorem conversationIdInjectiveSepFree_witness :
    createConversationId "b" "a" ≠ createConversationId "b" "c" :=
  conversationIdInjectiveSepFree "b" "a" "c" (by decide) (by decide) (by decide)
    (by decide)

/-- A message document in `conversations/{conversationId}/messages`. -/
structure MsgDoc where
  msgId : Nat
  text : String
  senderId : String
  receiverId : String
  timestamp : Nat
  seen : Bool
  status : String
  mtype : String
  mediaURL : Option String
  delivered : Bool
deriving DecidableEq

/-- The conversation metadata document `conversations/{conversationId}`. -/
structure ConvDoc where
  participants : List String
  lastMessage : String
  lastMessageSenderId : String
  timestamp : Nat
  seen : Bool
deriving DecidableEq

/-- One `userChats/{ownerId}/chats/{conversationId}` inbox entry. -/
structure ChatEntry where
  conversationId : String
  otherUserId : String
  otherUserDisplayName : String
  otherUserAvatar : Option String
  lastMessage : String
  lastMessageSenderId : String
  timestamp : Nat
  seen : Bool
deriving DecidableEq

/-- The fields of a `users/{userId}` document read by `updateUserChats`. -/
structure UserDoc where
  displayName : Option String
  username : Option String
  avatar : Option String
deriving DecidableEq

/-- JS `String.prototype.trim`: strip whitespace from both ends. -/
def jsTrim (s : String) : String :=
  ⟨((s.data.dropWhile Char.isWhitespace).reverse.dropWhile Char.isWhitespace).reverse⟩

/-- JS `x || fallback` on a possibly-absent string field. -/
def jsStrOr (o : Option String) (fallback : String) : String :=
  match o with
  | none => fallback
  | some s => if s == "" then fallback else s

/-- `data.displayName || data.username || 'Unknown User'`, where a missing
user document reads as `{}`. -/
def displayNameOf (u : Option UserDoc) : String :=
  match u with
  | none => "Unknown User"
  | some d => jsStrOr d.displayName (jsStrOr d.username "Unknown User")

/-- `data.avatar`, where a missing user document reads as `{}`. -/
def avatarOf (u : Option UserDoc) : Option String :=
  match u with
  | none => none
  | some d => d.avatar

/-- The slice of Firestore touched by the 1:1 send protocol. -/
structure ChatStore where
  messages : List (String × MsgDoc)
  convMeta : List (String × ConvDoc)
  userChats : List ((String × String) × ChatEntry)
deriving DecidableEq

def ChatStore.empty : ChatStore := ⟨[], [], []⟩

/-- One primitive document write of the send protocol. -/
inductive ChatWrite
  | putMessage (cid : String) (m : MsgDoc)
  | putConvMeta (cid : String) (d : ConvDoc)
  | putUserChat (ownerId cid : String) (e : ChatEntry)
deriving DecidableEq

/-- Apply one write: `addDoc`/`batch.set` for a message, upsert
(`setDoc`/`set` with merge over the full field set) for metadata and
inbox entries. -/
def applyWrite (s : ChatStore) : ChatWrite → ChatStore
  | .putMessage cid m => { s with messages := s.messages ++ [(cid, m)] }
  | .putConvMeta cid d =>
    { s with convMeta := (cid, d) :: s.convMeta.filter (fun e => e.1 != cid) }
  | .putUserChat o cid e =>
    { s with userChats :=
        ((o, cid), e) :: s.userChats.filter (fun x => x.1 != (o, cid)) }

/-- A commit applies all writes of one batch (or the single write of one
awaited `setDoc`). -/
def applyCommit (s : ChatStore) (c : List ChatWrite) : ChatStore :=
  c.foldl applyWrite s

/-- Execute the first `k` commits of a commit sequence: the state left
behind when commit `k+1` fails (or when `k` is the length, the success
state). -/
def execCommits (s : ChatStore) (cs : List (List ChatWrite)) (k : Nat) : ChatStore :=
  (cs.take k).foldl applyCommit s

def lookupConv (s : ChatStore) (cid : String) : Option ConvDoc :=
  (s.convMeta.find? (fun e => e.1 == cid)).map (fun e => e.2)

def lookupChat (s : ChatStore) (ownerId cid : String) : Option ChatEntry :=
  (s.userChats.find? (fun x => x.1 == (ownerId, cid))).map (fun x => x.2)

/-- The single write issued by `createOrUpdateConversation`
(`conversationService.ts`), committed on its own by `setDoc`. -/
def createOrUpdateConversationWrite (cid : String) (participants : List String)
    (lastMessage senderId : String) (now : Nat) : ChatWrite :=
  ChatWrite.putConvMeta cid
    { participants := participants
      lastMessage := lastMessage
      lastMessageSenderId := senderId
      timestamp := now
      seen := false }

/-- The batch issued by `updateUserChats` (`conversationService.ts`): one
inbox entry per participant, sender's `seen := true`, receiver's
`seen := false`. -/
def updateUserChatsWrites (users : String → Option UserDoc)
    (cid senderId receiverId lastMessage : String) (now : Nat) : List ChatWrite :=
  let senderData := users senderId
  let receiverData := users receiverId
  [ ChatWrite.putUserChat senderId cid
      { conversationId := cid
        otherUserId := receiverId
        otherUserDisplayName := displayNameOf receiverData
        otherUserAvatar := avatarOf receiverData
        lastMessage := lastMessage
        lastMessageSenderId := senderId
        timestamp := now
        seen := true },
    ChatWrite.putUserChat receiverId cid
      { conversationId := cid
        otherUserId := senderId
        otherUserDisplayName := displayNameOf senderData
        otherUserAvatar := avatarOf senderData
        lastMessage := lastMessage
        lastMessageSenderId := senderId
        timestamp := now
        seen := false } ]

/-- Shallow embedding of `sendMessageToConversation` (`chatService.ts`
section of `useFeedData.ts`): the validation, then the ordered sequence
of store commits the call performs.  The message `batch.set` is staged
first but committed last; the conversation-metadata upsert and the
userChats batch are separate, earlier commits of their own. -/
def sendMessageToConversation (users : String → Option UserDoc)
    (senderId receiverId text mtype : String) (mediaURL : Option String)
    (now msgId : Nat) : Except String (List (List ChatWrite)) :=
  if senderId == "" || receiverId == "" then
    Except.error "Missing required parameters for sending message"
  else if (jsTrim text) == "" && !(strTruthy mediaURL) then
    Except.error "Message must have text or media"
  else
    let cid := createConversationId senderId receiverId
    Except.ok
      [ [createOrUpdateConversationWrite cid [senderId, receiverId] (jsTrim text) senderId now],
        updateUserChatsWrites users cid senderId receiverId (jsTrim text) now,
        [ChatWrite.putMessage cid
          { msgId := msgId
            text := (jsTrim text)
            senderId := senderId
            receiverId := receiverId
            timestamp := now
            seen := false
            status := "sent"
            mtype := mtype
            mediaURL := if strTruthy mediaURL then mediaURL else none
            delivered := true }] ]

/-- The commit sequence of a send, `[]` when validation rejected it. -/
def commitsOf (e : Except String (List (List ChatWrite))) : List (List ChatWrite) :=
  match e with
  | Except.ok cs => cs
  | Except.error _ => []

/-- The commit sequence of a send call. -/
def sendCommits (users : String → Option UserDoc)
    (senderId receiverId text mtype : String) (mediaURL : Option String)
    (now msgId : Nat) : List (List ChatWrite) :=
  commitsOf (sendMessageToConversation users senderId receiverId text mtype mediaURL
    now msgId)

/-- A valid send produces the three-commit sequence: metadata upsert,
userChats batch, then the message batch. -/
lemma sendMessage_ok (users : String → Option UserDoc) (sid rid text mtype : String)
    (mURL : Option String) (now mid : Nat)
    (hs : (sid == "") = false) (hr : (rid == "") = false)
    (hv : (((jsTrim text) == "") && !(strTruthy mURL)) = false) :
    sendMessageToConversation users sid rid text mtype mURL now mid
      = Except.ok
          [ [createOrUpdateConversationWrite (createConversationId sid rid)
              [sid, rid] (jsTrim text) sid now],
            updateUserChatsWrites users (createConversationId sid rid) sid rid
              (jsTrim text) now,
            [ChatWrite.putMessage (createConversationId sid rid)
              { msgId := mid
                text := jsTrim text
                senderId := sid
                receiverId := rid
                timestamp := now
                seen := false
                status := "sent"
                mtype := mtype
                mediaURL := if strTruthy mURL then mURL else none
                delivered := true }] ] := by
  simp [sendMessageToConversation, hs, hr, hv]

/-- C4 counterexample: for the valid send `alice → bob, "hi"`, executing
the commits up to (but not including) the final message-batch commit — the
state in which that batch commit fails — leaves the conversation
metadata upsert already in effect while no message was appended.  The
message append and the metadata upsert are not one atomic batch. -/
theorem sendMessageNotAtomic_cex :
    (execCommits ChatStore.empty
        (sendCommits (fun _ => none) "alice" "bob" "hi" "text" none 5 0) 2).messages
      = [] ∧
    lookupConv
        (execCommits ChatStore.empty
          (sendCommits (fun _ => none) "alice" "bob" "hi" "text" none 5 0) 2)
        (createConversationId "alice" "bob")
      = some { participants := ["alice", "bob"]
               lastMessage := "hi"
               lastMessageSenderId := "alice"
               timestamp := 5
               seen := false } := by
  have h := sendMessage_ok (fun _ => none) "alice" "bob" "hi" "text" none 5 0
    (by decide) (by decide) (by decide)
  have hj : jsTrim "hi" = "hi" := by decide
  rw [hj] at h
  constructor
  · rw [sendCommits, h]
    simp [commitsOf, execCommits, applyCommit, applyWrite, updateUserChatsWrites,
      createOrUpdateConversationWrite, ChatStore.empty]
  · rw [sendCommits, h]
    simp [commitsOf, execCommits, applyCommit, applyWrite, updateUserChatsWrites,
      createOrUpdateConversationWrite, ChatStore.empty, lookupConv]

/-- C4 amended: every valid send (non-empty participants, and non-empty
trimmed text or a media reference) issues three separate commits — the
conversation-metadata upsert (its own `setDoc`), the userChats batch, and
finally the batch holding only the message append.  When all three run
the message is appended and the metadata is upserted; when the final
message-batch commit fails, the metadata upsert has already taken
effect and no message is appended. -/
theorem sendMessageThreeCommits (users : String → Option UserDoc)
    (sid rid text mtype : String) (mURL : Option String) (now mid : Nat)
    (s : ChatStore)
    (hs : sid ≠ "") (hr : rid ≠ "")
    (hv : jsTrim text ≠ "" ∨ strTruthy mURL = true) :
    (sendCommits users sid rid text mtype mURL now mid).length = 3 ∧
    (sendCommits users sid rid text mtype mURL now mid).getLast?
      = some [ChatWrite.putMessage (createConversationId sid rid)
          { msgId := mid
            text := jsTrim text
            senderId := sid
            receiverId := rid
            timestamp := now
            seen := false
            status := "sent"
            mtype := mtype
            mediaURL := if strTruthy mURL then mURL else none
            delivered := true }] ∧
    (execCommits s (sendCommits users sid rid text mtype mURL now mid) 3).messages
      = s.messages ++ [(createConversationId sid rid,
          { msgId := mid
            text := jsTrim text
            senderId := sid
            receiverId := rid
            timestamp := now
            seen := false
            status := "sent"
            mtype := mtype
            mediaURL := if strTruthy mURL then mURL else none
            delivered := true })] ∧
    lookupConv (execCommits s (sendCommits users sid rid text mtype mURL now mid) 3)
        (createConversationId sid rid)
      = some { participants := [sid, rid]
               lastMessage := jsTrim text
               lastMessageSenderId := sid
               timestamp := now
               seen := false } ∧
    (execCommits s (sendCommits users sid rid text mtype mURL now mid) 2).messages
      = s.messages ∧
    lookupConv (execCommits s (sendCommits users sid rid text mtype mURL now mid) 2)
        (createConversationId sid rid)
      = some { participants := [sid, rid]
               lastMessage := jsTrim text
               lastMessageSenderId := sid
               timestamp := now
               seen := false } := by
  have hv₁ : (((jsTrim text) == "") && !(strTruthy mURL)) = false := by
    rcases hv with h | h
    · simp [beq_eq_false_iff_ne.mpr h]
    · simp [h]
  have h := sendMessage_ok users sid rid text mtype mURL now mid
    (beq_eq_false_iff_ne.mpr hs) (beq_eq_false_iff_ne.mpr hr) hv₁
  rw [sendCommits, h]
  refine ⟨rfl, rfl, ?_, ?_, ?_, ?_⟩ <;>
    simp [commitsOf, execCommits, applyCommit, applyWrite, updateUserChatsWrites,
      createOrUpdateConversationWrite, lookupConv]

/-- Witness for the amended C4 at a concrete media-only send: empty text
with a media reference, which the validation accepts. -/
theorem sendMessageThreeCommits_witness :
    (sendCommits (fun _ => none) "alice" "bob" "" "image"
        (some "https://cdn/img.png") 5 0).length = 3 ∧
    (sendCommits (fun _ => none) "alice" "bob" "" "image"
        (some "https://cdn/img.png") 5 0).getLast?
      = some [ChatWrite.putMessage (createConversationId "alice" "bob")
          { msgId := 0
            text := jsTrim ""
            senderId := "alice"
            receiverId := "bob"
            timestamp := 5
            seen := false
            status := "sent"
            mtype := "image"
            mediaURL := if strTruthy (some "https://cdn/img.png") then
              some "https://cdn/img.png" else none
            delivered := true }] ∧
    (execCommits ChatStore.empty
        (sendCommits (fun _ => none) "alice" "bob" "" "image"
          (some "https://cdn/img.png") 5 0) 3).messages
      = ChatStore.empty.messages ++ [(createConversationId "alice" "bob",
          { msgId := 0
            text := jsTrim ""
            senderId := "alice"
            receiverId := "bob"
            timestamp := 5
            seen := false
            status := "sent"
            mtype := "image"
            mediaURL := if strTruthy (some "https://cdn/img.png") then
              some "https://cdn/img.png" else none
            delivered := true })] ∧
    lookupConv
        (execCommits ChatStore.empty
          (sendCommits (fun _ => none) "alice" "bob" "" "image"
            (some "https://cdn/img.png") 5 0) 3)
        (createConversationId "alice" "bob")
      = some { participants := ["alice", "bob"]
               lastMessage := jsTrim ""
               lastMessageSenderId := "alice"
               timestamp := 5
               seen := false } ∧
    (execCommits ChatStore.empty
        (sendCommits (fun _ => none) "alice" "bob" "" "image"
          (some "https://cdn/img.png") 5 0) 2).messages
      = ChatStore.empty.messages ∧
    lookupConv
        (execCommits ChatStore.empty
          (sendCommits (fun _ => none) "alice" "bob" "" "image"
            (some "https://cdn/img.png") 5 0) 2)
        (createConversationId "alice" "bob")
      = some { participants := ["alice", "bob"]
               lastMessage := jsTrim ""
               lastMessageSenderId := "alice"
               timestamp := 5
               seen := false } :=
  sendMessageThreeCommits (fun _ => none) "alice" "bob" "" "image"
    (some "https://cdn/img.png") 5 0 ChatStore.empty
    (by decide) (by decide) (Or.inr (by decide))

/-- C5: immediately after a successful 1:1 send, the sender's inbox entry
has `seen = true`, the receiver's has `seen = false`, and both carry the
identical last-message text. -/
theorem inboxAsymmetry (users : String → Option UserDoc)
    (sid rid text mtype : String) (mURL : Option String) (now mid : Nat)
    (s : ChatStore)
    (hs : sid ≠ "") (hr : rid ≠ "") (hsr : sid ≠ rid) (ht : jsTrim text ≠ "") :
    lookupChat (execCommits s (sendCommits users sid rid text mtype mURL now mid) 3)
        sid (createConversationId sid rid)
      = some { conversationId := createConversationId sid rid
               otherUserId := rid
               otherUserDisplayName := displayNameOf (users rid)
               otherUserAvatar := avatarOf (users rid)
               lastMessage := jsTrim text
               lastMessageSenderId := sid
               timestamp := now
               seen := true } ∧
    lookupChat (execCommits s (sendCommits users sid rid text mtype mURL now mid) 3)
        rid (createConversationId sid rid)
      = some { conversationId := createConversationId sid rid
               otherUserId := sid
               otherUserDisplayName := displayNameOf (users sid)
               otherUserAvatar := avatarOf (users sid)
               lastMessage := jsTrim text
               lastMessageSenderId := sid
               timestamp := now
               seen := false } := by
  have h := sendMessage_ok users sid rid text mtype mURL now mid
    (beq_eq_false_iff_ne.mpr hs) (beq_eq_false_iff_ne.mpr hr)
    (by simp [beq_eq_false_iff_ne.mpr ht])
  rw [sendCommits, h]
  have hne₁ : ((rid, createConversationId sid rid) : String × String)
      ≠ (sid, createConversationId sid rid) := by
    intro hx
    exact hsr (congrArg Prod.fst hx).symm
  have hbeq₁ : (((rid, createConversationId sid rid) : String × String)
      == (sid, createConversationId sid rid)) = false := beq_eq_false_iff_ne.mpr hne₁
  have hne₂ : ((sid, createConversationId sid rid) : String × String)
      ≠ (rid, createConversationId sid rid) := by
    intro hx
    exact hsr (congrArg Prod.fst hx)
  have hbne₂ : (((sid, createConversationId sid rid) : String × String)
      != (rid, createConversationId sid rid)) = true := bne_iff_ne.mpr hne₂
  constructor
  · simp only [commitsOf, execCommits, List.take, List.foldl, applyCommit, applyWrite,
      updateUserChatsWrites, createOrUpdateConversationWrite, lookupChat]
    rw [List.find?_cons_of_neg _ (by simp [hbeq₁])]
    simp only [List.filter_cons, hbne₂, if_true]
    rw [List.find?_cons_of_pos _ (by simp)]
    rfl
  · simp only [commitsOf, execCommits, List.take, List.foldl, applyCommit, applyWrite,
      updateUserChatsWrites, createOrUpdateConversationWrite, lookupChat]
    rw [List.find?_cons_of_pos _ (by simp)]
    rfl

/-- Witness for C5 at a concrete input. -/
theorem inboxAsymmetry_witness :
    lookupChat
        (execCommits ChatStore.empty
          (sendCommits (fun _ => none) "alice" "bob" "hi" "text" none 5 0) 3)
        "alice" (createConversationId "alice" "bob")
      = some { conversationId := createConversationId "alice" "bob"
               otherUserId := "bob"
               otherUserDisplayName := displayNameOf none
               otherUserAvatar := avatarOf none
               lastMessage := jsTrim "hi"
               lastMessageSenderId := "alice"
               timestamp := 5
               seen := true } ∧
    lookupChat
        (execCommits ChatStore.empty
          (sendCommits (fun _ => none) "alice" "bob" "hi" "text" none 5 0) 3)
        "bob" (createConversationId "alice" "bob")
      = some { conversationId := createConversationId "alice" "bob"
               otherUserId := "alice"
               otherUserDisplayName := displayNameOf none
               otherUserAvatar := avatarOf none
               lastMessage := jsTrim "hi"
               lastMessageSenderId := "alice"
               timestamp := 5
               seen := false } :=
  inboxAsymmetry (fun _ => none) "alice" "bob" "hi" "text" none 5 0 ChatStore.empty
    (by decide) (by decide) (by decide) (by decide)

/-- The social-graph slice of the store: follower edges
(`users/{owner}/followers/{follower}`), following edges
(`users/{owner}/following/{followed}`), pending follow requests
(`users/{target}/followRequests/{requester}`) and the two denormalized
counters on `users/{userId}`. -/
structure FollowStore where
  followers : List (String × String)
  following : List (String × String)
  followRequests : List (String × String)
  followersCount : String → Int
  followingCount : String → Int

/-- One awaited single-document write of `followOperations.ts`. -/
inductive FollowWrite
  | delRequest (target requester : String)
  | putFollower (owner follower : String)
  | putFollowing (owner followed : String)
  | incFollowersCount (u : String) (d : Int)
  | incFollowingCount (u : String) (d : Int)

def applyFollowWrite (s : FollowStore) : FollowWrite → FollowStore
  | .delRequest t r =>
    { s with followRequests := s.followRequests.filter (fun x => x != (t, r)) }
  | .putFollower o f =>
    { s with followers := (o, f) :: s.followers.filter (fun x => x != (o, f)) }
  | .putFollowing o f =>
    { s with following := (o, f) :: s.following.filter (fun x => x != (o, f)) }
  | .incFollowersCount u d =>
    { s with followersCount :=
        fun x => if x = u then s.followersCount x + d else s.followersCount x }
  | .incFollowingCount u d =>
    { s with followingCount :=
        fun x => if x = u then s.followingCount x + d else s.followingCount x }

/-- The ordered writes `acceptFollowRequest` (`followOperations.ts`)
performs, each awaited on its own — the function opens no `writeBatch`:
delete the request, create the followers edge, create the following edge,
then bump the two counters. -/
def acceptFollowRequestOps (currentUserId requesterId : String) : List FollowWrite :=
  [ FollowWrite.delRequest currentUserId requesterId,
    FollowWrite.putFollower currentUserId requesterId,
    FollowWrite.putFollowing requesterId currentUserId,
    FollowWrite.incFollowersCount currentUserId 1,
    FollowWrite.incFollowingCount requesterId 1 ]

/-- Execute the first `k` of the separately-committed writes: the state
left behind when write `k+1` fails. -/
def execFollowOps (s : FollowStore) (ops : List FollowWrite) (k : Nat) : FollowStore :=
  (ops.take k).foldl applyFollowWrite s

/-- A store holding one pending follow request from "r" to "u". -/
def acceptCexStore : FollowStore :=
  { followers := []
    following := []
    followRequests := [("u", "r")]
    followersCount := fun _ => 0
    followingCount := fun _ => 0 }

/-- C8 counterexample: `acceptFollowRequest "u" "r"` on a store holding
the pending request.  After the first of its five separate writes — the
state in which the second write fails — the FollowRequest is already
deleted while neither mirrored edge exists, so the three writes are not
all-or-nothing. -/
theorem acceptFollowRequestNotAtomic_cex :
    (execFollowOps acceptCexStore (acceptFollowRequestOps "u" "r") 1).followRequests
      = [] ∧
    (execFollowOps acceptCexStore (acceptFollowRequestOps "u" "r") 1).followers
      = [] ∧
    (execFollowOps acceptCexStore (acceptFollowRequestOps "u" "r") 1).following
      = [] ∧
    ("u", "r") ∈ (execFollowOps acceptCexStore (acceptFollowRequestOps "u" "r") 5).followers ∧
    ("r", "u") ∈ (execFollowOps acceptCexStore (acceptFollowRequestOps "u" "r") 5).following := by
  refine ⟨?_, ?_, ?_, ?_, ?_⟩ <;>
    simp [execFollowOps, acceptFollowRequestOps, applyFollowWrite, acceptCexStore]

/-- C8 amended: `acceptFollowRequest` performs the request deletion and
the two mirrored edge creations as separate sequential single-document
writes (followed by two counter updates), not as one batch.  When every
write runs, both mirrored edges exist and no request remains; when only
the first write has run, the request is already deleted while both edge
collections are untouched. -/
theorem acceptFollowRequestSequential (s : FollowStore) (cu rq : String) :
    (acceptFollowRequestOps cu rq).length = 5 ∧
    (cu, rq) ∈ (execFollowOps s (acceptFollowRequestOps cu rq) 5).followers ∧
    (rq, cu) ∈ (execFollowOps s (acceptFollowRequestOps cu rq) 5).following ∧
    (cu, rq) ∉ (execFollowOps s (acceptFollowRequestOps cu rq) 5).followRequests ∧
    (execFollowOps s (acceptFollowRequestOps cu rq) 1).followers = s.followers ∧
    (execFollowOps s (acceptFollowRequestOps cu rq) 1).following = s.following ∧
    (cu, rq) ∉ (execFollowOps s (acceptFollowRequestOps cu rq) 1).followRequests := by
  refine ⟨rfl, ?_, ?_, ?_, rfl, rfl, ?_⟩ <;>
    simp [execFollowOps, acceptFollowRequestOps, applyFollowWrite]

/-- A group chat document (`groups/{groupId}`). -/
structure GroupLastMessage where
  text : String
  senderId : String
  timestamp : Nat
  seen : Bool
deriving DecidableEq

structure GroupDoc where
  name : String
  description : String
  avatar : Option String
  members : List String
  admins : List String
  createdBy : String
  createdAt : Nat
  updatedAt : Nat
  lastMessage : Option GroupLastMessage
deriving DecidableEq

/-- The `groups` collection, keyed by group id. -/
def GroupStore := String → Option GroupDoc

/-- Firestore `arrayUnion`: append if absent. -/
def arrayUnion (l : List String) (x : String) : List String :=
  if x ∈ l then l else l ++ [x]

/-- Firestore `arrayRemove`: remove every occurrence. -/
def arrayRemove (l : List String) (x : String) : List String :=
  l.filter (fun y => y != x)

/-- Shallow embedding of `addMemberToGroup` (`groupService.ts`): read the
group, throw unless the caller is an admin, else `arrayUnion` the new
member. -/
def addMemberToGroup (now : Nat) (groupId userId adminId : String)
    (s : GroupStore) : Except String Unit × GroupStore :=
  match s groupId with
  | none => (Except.error "Group not found", s)
  | some g =>
    if !(g.admins.contains adminId) then
      (Except.error "Only admins can add members", s)
    else
      (Except.ok (), fun k =>
        if k = groupId then
          some { g with members := arrayUnion g.members userId, updatedAt := now }
        else s k)

/-- Shallow embedding of `removeMemberFromGroup` (`groupService.ts`):
read the group, throw unless the caller is an admin or is removing
themself, else `arrayRemove` the member. -/
def removeMemberFromGroup (now : Nat) (groupId userId adminId : String)
    (s : GroupStore) : Except String Unit × GroupStore :=
  match s groupId with
  | none => (Except.error "Group not found", s)
  | some g =>
    if !(g.admins.contains adminId) && !(adminId == userId) then
      (Except.error "Only admins can remove members or users can remove themselves", s)
    else
      (Except.ok (), fun k =>
        if k = groupId then
          some { g with members := arrayRemove g.members userId, updatedAt := now }
        else s k)

/-- C9: group membership mutations preserve the authorization invariant:
adding requires the caller in the admin set (otherwise an error and an
unchanged store), removing requires the caller in the admin set or
removing themself (self-removal always succeeds), and in the authorized
cases the member list is updated by `arrayUnion` / `arrayRemove`. -/
theorem groupMembershipAuthorization (now : Nat) (gid uid caller : String)
    (s : GroupStore) (g : GroupDoc) (hfind : s gid = some g) :
    (g.admins.contains caller = false →
      addMemberToGroup now gid uid caller s
        = (Except.error "Only admins can add members", s)) ∧
    (g.admins.contains caller = true →
      (addMemberToGroup now gid uid caller s).1 = Except.ok () ∧
      (addMemberToGroup now gid uid caller s).2 gid
        = some { g with members := arrayUnion g.members uid, updatedAt := now }) ∧
    (g.admins.contains caller = false → caller ≠ uid →
      removeMemberFromGroup now gid uid caller s
        = (Except.error "Only admins can remove members or users can remove themselves", s)) ∧
    (g.admins.contains caller = true ∨ caller = uid →
      (removeMemberFromGroup now gid uid caller s).1 = Except.ok () ∧
      (removeMemberFromGroup now gid uid caller s).2 gid
        = some { g with members := arrayRemove g.members uid, updatedAt := now }) := by
  refine ⟨?_, ?_, ?_, ?_⟩
  · intro hadm
    have hmem : caller ∉ g.admins := by simpa using hadm
    simp [addMemberToGroup, hfind, hmem]
  · intro hadm
    have hmem : caller ∈ g.admins := by simpa using hadm
    constructor <;> simp [addMemberToGroup, hfind, hmem]
  · intro hadm hne
    have hmem : caller ∉ g.admins := by simpa using hadm
    simp [removeMemberFromGroup, hfind, hmem, hne]
  · intro hok
    rcases hok with hadm | rfl
    · have hmem : caller ∈ g.admins := by simpa using hadm
      constructor <;> simp [removeMemberFromGroup, hfind, hmem]
    · constructor <;> simp [removeMemberFromGroup, hfind]

/-- A two-member group with a sole admin, for the C9 witness. -/
def witnessGroupDoc : GroupDoc :=
  { name := "g"
    description := ""
    avatar := none
    members := ["alice", "bob"]
    admins := ["alice"]
    createdBy := "alice"
    createdAt := 0
    updatedAt := 0
    lastMessage := none }

def witnessGroupStore : GroupStore :=
  fun k => if k = "g1" then some witnessGroupDoc else none

/-- Witness for C9: in the concrete group, the non-admin member "bob"
cannot add "carol" — the call errors and the store is unchanged. -/
theorem groupMembershipAuthorization_witness :
    addMemberToGroup 7 "g1" "carol" "bob" witnessGroupStore
      = (Except.error "Only admins can add members", witnessGroupStore) :=
  (groupMembershipAuthorization 7 "g1" "carol" "bob" witnessGroupStore witnessGroupDoc
    (by simp [witnessGroupStore])).1 (by decide)

/-- Environment for the follow operations: which awaited store call (by
position in the function body) throws, the target user's document
(`some isPrivate` when it exists), and whether a pending follow request
document exists for a (target, requester) pair. -/
structure FailEnv where
  fails : Nat → Bool
  users : String → Option Bool
  requestExists : String × String → Bool

/-- One awaited store call: throws when the environment says so. -/
def fstep (env : FailEnv) (i : Nat) : Except String Unit :=
  if env.fails i then Except.error "store failure" else Except.ok ()

/-- The `try { ... } catch { return false }` wrapper shared by every
exported operation of `followOperations.ts`. -/
def catchBool (e : Except String Bool) : Except String Bool :=
  match e with
  | Except.ok b => Except.ok b
  | Except.error _ => Except.ok false

/-- Body of `sendFollowRequest`: validation throws, the request `setDoc`
can throw, and the notification attempt sits in its own inner
`try`/`catch` whose failure is swallowed. -/
def sendFollowRequestBody (env : FailEnv) (currentUserId targetUserId : String) :
    Except String Bool :=
  if currentUserId == "" || targetUserId == "" then
    Except.error "Missing user IDs"
  else if currentUserId == targetUserId then
    Except.error "Cannot send follow request to yourself"
  else do
    fstep env 0
    let _ := fstep env 1
    pure true

def sendFollowRequest (env : FailEnv) (currentUserId targetUserId : String) :
    Except String Bool :=
  catchBool (sendFollowRequestBody env currentUserId targetUserId)

/-- Body of `followUser`: validation, the target-privacy read, then
either delegation to `sendFollowRequest` (private target) or the four
edge/counter writes. -/
def followUserBody (env : FailEnv) (currentUserId targetUserId : String) :
    Except String Bool :=
  if currentUserId == "" || targetUserId == "" then
    Except.error "Missing user IDs"
  else if currentUserId == targetUserId then
    Except.error "Cannot follow yourself"
  else do
    fstep env 0
    match env.users targetUserId with
    | some true => sendFollowRequest env currentUserId targetUserId
    | _ => do
      fstep env 1
      fstep env 2
      fstep env 3
      fstep env 4
      pure true

def followUser (env : FailEnv) (currentUserId targetUserId : String) :
    Except String Bool :=
  catchBool (followUserBody env currentUserId targetUserId)

/-- Body of `acceptFollowRequest`: five awaited writes, then the
notification cleanup (which swallows its own errors) and the
follow-accept notification creation (which rethrows). -/
def acceptFollowRequestBody (env : FailEnv) (currentUserId requesterId : String) :
    Except String Bool :=
  if currentUserId == "" || requesterId == "" then
    Except.error "Missing user IDs"
  else do
    fstep env 0
    fstep env 1
    fstep env 2
    fstep env 3
    fstep env 4
    let _ := fstep env 5
    fstep env 6
    pure true

def acceptFollowRequest (env : FailEnv) (currentUserId requesterId : String) :
    Except String Bool :=
  catchBool (acceptFollowRequestBody env currentUserId requesterId)

/-- Body of `rejectFollowRequest`: the request deletion, then the
notification removal (which swallows its own errors). -/
def rejectFollowRequestBody (env : FailEnv) (currentUserId requesterId : String) :
    Except String Bool :=
  if currentUserId == "" || requesterId == "" then
    Except.error "Missing user IDs"
  else do
    fstep env 0
    let _ := fstep env 1
    pure true

def rejectFollowRequest (env : FailEnv) (currentUserId requesterId : String) :
    Except String Bool :=
  catchBool (rejectFollowRequestBody env currentUserId requesterId)

/-- Body of `unfollowUser`: the pending-request read; if a request
exists, cancel it; otherwise delete both edges and bump both counters. -/
def unfollowUserBody (env : FailEnv) (currentUserId targetUserId : String) :
    Except String Bool :=
  if currentUserId == "" || targetUserId == "" then
    Except.error "Missing user IDs"
  else do
    fstep env 0
    if env.requestExists (targetUserId, currentUserId) then do
      fstep env 1
      pure true
    else do
      fstep env 1
      fstep env 2
      fstep env 3
      fstep env 4
      pure true

def unfollowUser (env : FailEnv) (currentUserId targetUserId : String) :
    Except String Bool :=
  catchBool (unfollowUserBody env currentUserId targetUserId)

/-- Body of `removeFollower`: the two edge deletions and two counter
updates. -/
def removeFollowerBody (env : FailEnv) (currentUserId followerUserId : String) :
    Except String Bool :=
  if currentUserId == "" || followerUserId == "" then
    Except.error "Missing user IDs"
  else do
    fstep env 0
    fstep env 1
    fstep env 2
    fstep env 3
    pure true

def removeFollower (env : FailEnv) (currentUserId followerUserId : String) :
    Except String Bool :=
  catchBool (removeFollowerBody env currentUserId followerUserId)

/-- Body of `cancelFollowRequest`: the single request deletion. -/
def cancelFollowRequestBody (env : FailEnv) (currentUserId targetUserId : String) :
    Except String Bool :=
  if currentUserId == "" || targetUserId == "" then
    Except.error "Missing user IDs"
  else do
    fstep env 0
    pure true

def cancelFollowRequest (env : FailEnv) (currentUserId targetUserId : String) :
    Except String Bool :=
  catchBool (cancelFollowRequestBody env currentUserId targetUserId)

/-- A promise that settled without rejecting: it resolved to `true` or to
`false`. -/
def resolves (e : Except String Bool) : Prop :=
  e = Except.ok true ∨ e = Except.ok false

lemma catchBool_resolves (e : Except String Bool) : resolves (catchBool e) := by
  cases e with
  | ok b =>
    cases b with
    | true => exact Or.inl rfl
    | false => exact Or.inr rfl
  | error _ => exact Or.inr rfl

/-- An environment in which every store call throws. -/
def allFail (env : FailEnv) : FailEnv :=
  { env with fails := fun _ => true }

/-- C10: every exported follow-graph operation settles without rejecting,
for every input and every store behaviour; invalid inputs (an empty id or
a self-follow) resolve to `false`, and so does every operation when its
store calls fail. -/
theorem followOpsNeverReject (env : FailEnv) (cu tu : String) :
    resolves (followUser env cu tu) ∧
    resolves (sendFollowRequest env cu tu) ∧
    resolves (acceptFollowRequest env cu tu) ∧
    resolves (rejectFollowRequest env cu tu) ∧
    resolves (unfollowUser env cu tu) ∧
    resolves (removeFollower env cu tu) ∧
    resolves (cancelFollowRequest env cu tu) ∧
    followUser env "" tu = Except.ok false ∧
    followUser env cu cu = Except.ok false ∧
    sendFollowRequest env cu cu = Except.ok false ∧
    acceptFollowRequest env cu "" = Except.ok false ∧
    rejectFollowRequest env "" tu = Except.ok false ∧
    unfollowUser env "" tu = Except.ok false ∧
    removeFollower env cu "" = Except.ok false ∧
    cancelFollowRequest env "" tu = Except.ok false ∧
    followUser (allFail env) cu tu = Except.ok false ∧
    sendFollowRequest (allFail env) cu tu = Except.ok false ∧
    acceptFollowRequest (allFail env) cu tu = Except.ok false ∧
    rejectFollowRequest (allFail env) cu tu = Except.ok false ∧
    unfollowUser (allFail env) cu tu = Except.ok false ∧
    removeFollower (allFail env) cu tu = Except.ok false ∧
    cancelFollowRequest (allFail env) cu tu = Except.ok false := by
  refine ⟨catchBool_resolves _, catchBool_resolves _, catchBool_resolves _,
    catchBool_resolves _, catchBool_resolves _, catchBool_resolves _,
    catchBool_resolves _, ?_, ?_, ?_, ?_, ?_, ?_, ?_, ?_, ?_, ?_, ?_, ?_, ?_, ?_, ?_⟩
  · rfl
  · cases h : cu == "" <;>
      simp [followUser, followUserBody, catchBool, h]
  · cases h : cu == "" <;>
      simp [sendFollowRequest, sendFollowRequestBody, catchBool, h]
  · cases h : cu == "" <;>
      simp [acceptFollowRequest, acceptFollowRequestBody, catchBool, h]
  · rfl
  · rfl
  · cases h : cu == "" <;>
      simp [removeFollower, removeFollowerBody, catchBool, h]
  · rfl
  · cases h1 : cu == "" <;> cases h2 : tu == "" <;> cases h3 : cu == tu <;>
      simp [followUser, followUserBody, sendFollowRequest, sendFollowRequestBody,
        catchBool, allFail, fstep, Bind.bind, Except.bind, h1, h2, h3]
  · cases h1 : cu == "" <;> cases h2 : tu == "" <;> cases h3 : cu == tu <;>
      simp [sendFollowRequest, sendFollowRequestBody, catchBool, allFail, fstep, Bind.bind, Except.bind,
        h1, h2, h3]
  · cases h1 : cu == "" <;> cases h2 : tu == "" <;>
      simp [acceptFollowRequest, acceptFollowRequestBody, catchBool, allFail, fstep, Bind.bind, Except.bind,
        h1, h2]
  · cases h1 : cu == "" <;> cases h2 : tu == "" <;>
      simp [rejectFollowRequest, rejectFollowRequestBody, catchBool, allFail, fstep, Bind.bind, Except.bind,
        h1, h2]
  · cases h1 : cu == "" <;> cases h2 : tu == "" <;>
      simp [unfollowUser, unfollowUserBody, catchBool, allFail, fstep, Bind.bind, Except.bind, h1, h2]
  · cases h1 : cu == "" <;> cases h2 : tu == "" <;>
      simp [removeFollower, removeFollowerBody, catchBool, allFail, fstep, Bind.bind, Except.bind, h1, h2]
  · cases h1 : cu == "" <;> cases h2 : tu == "" <;>
      simp [cancelFollowRequest, cancelFollowRequestBody, catchBool, allFail, fstep, Bind.bind, Except.bind,
        h1, h2]

end Genzly
